import Mathlib

/-!
# Verification of the lazy-pdb application state machine

A shallow embedding of the data model (`src/app.rs`), the key-event handler
(`src/update.rs`) and the main event-loop dispatch (`src/main.rs`) of the
lazy-pdb terminal debugger front end, together with theorems settling the
specification's claims about them.

Conventions of the embedding:
* Rust `Vec<T>` becomes `List T`; `usize` becomes `Nat` with explicit
  checked arithmetic where overflow matters.
* A Rust panic (from `unwrap()` or from checked arithmetic overflow, the
  behaviour of debug builds) is modelled as `Except.error msg`; a normal
  return is `Except.ok`.  In release builds the subtraction would instead
  wrap modulo 2^64; where that matters it is discussed at the theorem.
* The network transport underlying `send_rpc_request` is external I/O and is
  modelled as an explicit oracle argument giving, for each request, the
  outcome of the underlying `client.call`: either a transport-level failure
  (which the source `unwrap()`s) or the remote's `Result<DebugActionResult,
  Fault>`.
-/

namespace LazyPdb

/-- `Variable` from `src/app.rs`: one variable binding in a frame. -/
structure Variable where
  name : String
  value : String
  python_type : String
deriving DecidableEq

/-- `Frame` from `src/app.rs`: one activation record of the debuggee. -/
structure Frame where
  file_name : String
  line_number : Nat
  function_name : String
  local_variables : List Variable
  global_variables : List Variable
deriving DecidableEq

/-- `Snapshot` from `src/app.rs`: the debuggee's paused call stack. -/
structure Snapshot where
  stack : List Frame
deriving DecidableEq

/-- `Default for Snapshot` (derived in the source): empty stack. -/
def Snapshot.default : Snapshot := ⟨[]⟩

/-- `AppState` from `src/app.rs`; `Idle` is the `#[default]` variant. -/
inductive AppState where
  | Idle
  | RunningCode
  | Breakpoint
  | Error (msg : String)
deriving DecidableEq

/-- `SelectedPanel` from `src/app.rs`; `CallStack` is the `#[default]` variant. -/
inductive SelectedPanel where
  | CallStack
  | Code
  | Variables
  | Output
deriving DecidableEq

/-- `OutputType` from `src/app.rs`; `Stdout` is the `#[default]` variant. -/
inductive OutputType where
  | Stdout
  | Stderr
deriving DecidableEq

/-- `OutputLine` from `src/app.rs`: one captured line of debuggee output. -/
structure OutputLine where
  output_type : OutputType
  contents : String
deriving DecidableEq

/-- `App` from `src/app.rs`: the whole application state. -/
structure App where
  should_quit : Bool
  snapshot : Snapshot
  state : AppState
  selected_panel : SelectedPanel
  selected_frame : Nat
  output : List OutputLine
deriving DecidableEq

/-- `App::new()` = `Self::default()`: all fields take their `Default` values
(`false`, empty snapshot, `Idle`, `CallStack`, `0`, empty vector). -/
def App.new : App :=
  { should_quit := false
    snapshot := Snapshot.default
    state := AppState.Idle
    selected_panel := SelectedPanel.CallStack
    selected_frame := 0
    output := [] }

/-- `App::quit` from `src/app.rs`. -/
def App.quit (a : App) : App := { a with should_quit := true }

/-- `App::get_selected_frame` from `src/app.rs`:
`self.snapshot.stack.get(self.selected_frame)` (`Vec::get`, total). -/
def App.get_selected_frame (a : App) : Option Frame :=
  a.snapshot.stack[a.selected_frame]?

/-- Rust `usize` subtraction as executed in debug builds: checked, a panic on
underflow (`Except.error`). Release builds would wrap modulo 2^64 instead. -/
def usizeSub (a b : Nat) : Except String Nat :=
  if b ≤ a then Except.ok (a - b)
  else Except.error "attempt to subtract with overflow"

/-- `crossterm::event::KeyCode` (the variants of the upstream enum; the
`Media`/`Modifier` payloads are abstracted to `Nat` since the program never
inspects them). -/
inductive KeyCode where
  | Backspace
  | Enter
  | Left
  | Right
  | Up
  | Down
  | Home
  | End
  | PageUp
  | PageDown
  | Tab
  | BackTab
  | Delete
  | Insert
  | F (n : Nat)
  | Char (c : Char)
  | Null
  | Esc
  | CapsLock
  | ScrollLock
  | NumLock
  | PrintScreen
  | Pause
  | Menu
  | KeypadBegin
  | Media (m : Nat)
  | Modifier (m : Nat)
deriving DecidableEq

/-- `crossterm::event::KeyEvent`, reduced to the fields the program reads:
`update` matches only on `code`; `modifiers` is carried but never read. -/
structure KeyEvent where
  code : KeyCode
  modifiers : Nat
deriving DecidableEq

/-- `DebugAction` from `src/update.rs`: the outbound RPC request. -/
structure DebugAction where
  requested_action : String
  arguments : List String
deriving DecidableEq

/-- `DebugActionResult` from `src/update.rs`: the outbound RPC response. -/
structure DebugActionResult where
  requested_action : String
  arguments : List String
  status : String
  message : String
deriving DecidableEq

/-- `xml_rpc::Fault`: the remote-side error value of the RPC library. -/
structure Fault where
  fault_code : Int
  fault_string : String
deriving DecidableEq

/-- Outcome of the underlying `client.call` in `send_rpc_request`: either a
transport-level failure (failure to connect or to receive a response), or
the remote's `Result<DebugActionResult, Fault>`. -/
inductive TransportOutcome where
  | transportError (msg : String)
  | remote (r : Except Fault DebugActionResult)

/-- The transport oracle: what the network returns for each request. -/
def Transport : Type := DebugAction → TransportOutcome

/-- `send_rpc_request` from `src/update.rs`.  The source calls
`client.call(...).unwrap()`: the transport-level `Result` is unwrapped, so a
transport failure panics (`Except.error`), while the remote-side
`Result<DebugActionResult, Fault>` is returned to the caller. -/
def send_rpc_request (transport : Transport) (request_data : DebugAction) :
    Except String (Except Fault DebugActionResult) :=
  match transport request_data with
  | TransportOutcome.transportError e => Except.error e
  | TransportOutcome.remote response => Except.ok response

/-- `Result::is_ok` on the remote response. -/
def resultIsOk (r : Except Fault DebugActionResult) : Bool :=
  match r with
  | Except.ok _ => true
  | Except.error _ => false

/-- `panel_order` from `update` in `src/update.rs`. -/
def panel_order : List SelectedPanel :=
  [SelectedPanel.CallStack, SelectedPanel.Code,
   SelectedPanel.Variables, SelectedPanel.Output]

/-- `update` from `src/update.rs`, with the network modelled by the
`transport` oracle.  `Except.error` is a panic of the process (an
`unwrap()` failure or a checked-arithmetic underflow). -/
def update (transport : Transport) (app : App) (key_event : KeyEvent) :
    Except String App :=
  match key_event.code with
  | KeyCode.Esc => Except.ok app.quit
  | KeyCode.Char 'q' => Except.ok app.quit
  | KeyCode.Char 'c' =>
      match send_rpc_request transport ⟨"continue", []⟩ with
      | Except.error e => Except.error e
      | Except.ok r =>
          Except.ok (if resultIsOk r then { app with state := AppState.RunningCode } else app)
  | KeyCode.Char 'n' =>
      match send_rpc_request transport ⟨"next", []⟩ with
      | Except.error e => Except.error e
      | Except.ok r =>
          Except.ok (if resultIsOk r then { app with state := AppState.RunningCode } else app)
  | KeyCode.Char 't' =>
      match send_rpc_request transport ⟨"stop", []⟩ with
      | Except.error e => Except.error e
      | Except.ok r =>
          Except.ok (if resultIsOk r then { app with state := AppState.Idle } else app)
  | KeyCode.Tab =>
      match panel_order.findIdx? (fun panel => panel == app.selected_panel) with
      | none => Except.error "called Option::unwrap() on a None value"
      | some current_panel_index =>
          match panel_order[(current_panel_index + 1) % panel_order.length]? with
          | none => Except.error "index out of bounds"
          | some p => Except.ok { app with selected_panel := p }
  | KeyCode.BackTab =>
      match panel_order.findIdx? (fun panel => panel == app.selected_panel) with
      | none => Except.error "called Option::unwrap() on a None value"
      | some current_panel_index =>
          match panel_order[(current_panel_index + panel_order.length - 1) % panel_order.length]? with
          | none => Except.error "index out of bounds"
          | some p => Except.ok { app with selected_panel := p }
  | KeyCode.Char 'j' =>
      match app.selected_panel with
      | SelectedPanel.CallStack =>
          match usizeSub app.snapshot.stack.length 1 with
          | Except.error e => Except.error e
          | Except.ok lim =>
              Except.ok (if app.selected_frame < lim
                then { app with selected_frame := app.selected_frame + 1 } else app)
      | _ => Except.ok app
  | KeyCode.Down =>
      match app.selected_panel with
      | SelectedPanel.CallStack =>
          match usizeSub app.snapshot.stack.length 1 with
          | Except.error e => Except.error e
          | Except.ok lim =>
              Except.ok (if app.selected_frame < lim
                then { app with selected_frame := app.selected_frame + 1 } else app)
      | _ => Except.ok app
  | KeyCode.Char 'k' =>
      match app.selected_panel with
      | SelectedPanel.CallStack =>
          Except.ok (if app.selected_frame > 0
            then { app with selected_frame := app.selected_frame - 1 } else app)
      | _ => Except.ok app
  | KeyCode.Up =>
      match app.selected_panel with
      | SelectedPanel.CallStack =>
          Except.ok (if app.selected_frame > 0
            then { app with selected_frame := app.selected_frame - 1 } else app)
      | _ => Except.ok app
  | _ => Except.ok app

/-- `Event` from `src/event.rs`.  The `MouseEvent` payload is abstracted to a
`Nat` since the main loop never inspects it. -/
inductive Event where
  | Tick
  | Key (k : KeyEvent)
  | Mouse (m : Nat)
  | Resize (w : Nat) (h : Nat)
  | SnapshotReceived (s : Snapshot)
  | StdoutReceived (line : String)
  | StderrReceived (line : String)

/-- One iteration of the consumer `match` of the main loop in `src/main.rs`
(the `match tui.events.next()?` dispatch): how a single received event
transforms the application state.  On `SnapshotReceived` the source assigns
`app.snapshot = snapshot` and then `app.selected_frame =
app.snapshot.stack.len() - 1`, so the length is that of the new snapshot;
the subtraction is the checked `usize` one. -/
def step (transport : Transport) (app : App) (e : Event) : Except String App :=
  match e with
  | Event.Key key_event => update transport app key_event
  | Event.SnapshotReceived snapshot =>
      match usizeSub snapshot.stack.length 1 with
      | Except.error msg => Except.error msg
      | Except.ok i =>
          Except.ok { app with snapshot := snapshot
                               state := AppState.Breakpoint
                               selected_frame := i }
  | Event.StdoutReceived line =>
      Except.ok { app with output :=
        app.output ++ [⟨OutputType.Stdout, line⟩] }
  | Event.StderrReceived line =>
      Except.ok { app with output :=
        app.output ++ [⟨OutputType.Stderr, line⟩] }
  | _ => Except.ok app

/-- The key codes `update` in `src/update.rs` matches explicitly; every other
code falls to the final wildcard arm. -/
def handledCode (c : KeyCode) : Bool :=
  match c with
  | KeyCode.Esc => true
  | KeyCode.Char 'q' => true
  | KeyCode.Char 'c' => true
  | KeyCode.Char 'n' => true
  | KeyCode.Char 't' => true
  | KeyCode.Tab => true
  | KeyCode.BackTab => true
  | KeyCode.Char 'j' => true
  | KeyCode.Down => true
  | KeyCode.Char 'k' => true
  | KeyCode.Up => true
  | _ => false

/-- A sample frame used in witnesses. -/
def sampleFrame : Frame :=
  { file_name := "example.py"
    line_number := 3
    function_name := "main"
    local_variables := []
    global_variables := [] }

/-- A second sample frame used in witnesses. -/
def sampleFrame2 : Frame :=
  { file_name := "example.py"
    line_number := 7
    function_name := "helper"
    local_variables := []
    global_variables := [] }

/-- A sample application state with a two-frame stack, used in witnesses. -/
def sampleApp : App :=
  { should_quit := false
    snapshot := ⟨[sampleFrame, sampleFrame2]⟩
    state := AppState.Breakpoint
    selected_panel := SelectedPanel.CallStack
    selected_frame := 1
    output := [] }

/-- A transport on which every call fails at the transport level. -/
def failingTransport : Transport :=
  fun _ => TransportOutcome.transportError "failed to connect"

/-- A transport on which every call reaches the remote and comes back as the
fault `f`. -/
def faultTransport (f : Fault) : Transport :=
  fun _ => TransportOutcome.remote (Except.error f)

/-- A transport on which every call reaches the remote and succeeds with the
result `res`. -/
def okTransport (res : DebugActionResult) : Transport :=
  fun _ => TransportOutcome.remote (Except.ok res)

/-- Checked `usize` subtraction of one succeeds exactly on positive input. -/
theorem usizeSub_one_of_pos (n : Nat) (h : 0 < n) :
    usizeSub n 1 = Except.ok (n - 1) := by
  unfold usizeSub
  rw [if_pos (by omega : 1 ≤ n)]

/-- C8: the initial `ApplicationState` produced by `App::new` has
`mode = Idle`, `selectedPanel = CallStack`, `selectedFrameIndex = 0`, an
empty snapshot stack, an empty output sequence, and `shouldQuit = false`. -/
theorem initial_state_fields :
    App.new.state = AppState.Idle ∧
    App.new.selected_panel = SelectedPanel.CallStack ∧
    App.new.selected_frame = 0 ∧
    App.new.snapshot.stack = [] ∧
    App.new.output = [] ∧
    App.new.should_quit = false :=
  ⟨rfl, rfl, rfl, rfl, rfl, rfl⟩

/-- C1: processing `SnapshotReceived(s)` replaces the snapshot, sets
`mode = Breakpoint` and selects the last frame when the stack is non-empty;
but on an EMPTY stack the source computes `stack.len() - 1` unconditionally
and the `usize` subtraction underflows (a panic in debug builds, a wrap to
2^64 - 1 in release builds), contradicting the claim's "clamped, never
underflows". -/
theorem snapshot_received_behaviour (t : Transport) (app : App)
    (fr : Frame) (rest : List Frame) :
    (step t app (Event.SnapshotReceived ⟨fr :: rest⟩) =
      Except.ok { app with snapshot := ⟨fr :: rest⟩
                           state := AppState.Breakpoint
                           selected_frame := rest.length }) ∧
    (step t app (Event.SnapshotReceived ⟨[]⟩) =
      Except.error "attempt to subtract with overflow") := by
  constructor
  · have h1 : usizeSub (rest.length + 1) 1 = Except.ok rest.length := by
      rw [usizeSub_one_of_pos _ (by omega)]
      rfl
    simp [step, h1]
  · rfl

/-- C4: on an empty stack with the call-stack panel selected (for example the
initial state), pressing Down or `j` evaluates the guard
`selected_frame < stack.len() - 1`, whose `usize` subtraction underflows
(debug panic; in release the guard compares against 2^64 - 1 and the index
is incremented on an empty stack) — not the no-op the claim requires. -/
theorem down_on_empty_stack_panics (t : Transport) :
    update t App.new ⟨KeyCode.Down, 0⟩ =
      Except.error "attempt to subtract with overflow" ∧
    update t App.new ⟨KeyCode.Char 'j', 0⟩ =
      Except.error "attempt to subtract with overflow" :=
  ⟨rfl, rfl⟩

/-- C2 counterexample: a control-protocol call whose transport fails does NOT
return an error value to the state machine — the source `unwrap()`s the
transport-level `Result`, so the process panics (modelled as
`Except.error`). -/
theorem transport_failure_panics :
    update failingTransport App.new ⟨KeyCode.Char 'c', 0⟩ =
      Except.error "failed to connect" :=
  rfl

/-- C2 amended: a REMOTE-side failure (an `xml_rpc::Fault`) is recovered
locally — `send_rpc_request` returns it as an error value and the state
machine leaves the whole state (hence `mode`) unchanged; a TRANSPORT-level
failure instead panics the process via `unwrap()`. -/
theorem rpc_failure_handling (app : App) (f : Fault) (a : DebugAction)
    (e : String) :
    (send_rpc_request (faultTransport f) a = Except.ok (Except.error f)) ∧
    (update (faultTransport f) app ⟨KeyCode.Char 'c', 0⟩ = Except.ok app) ∧
    (update (faultTransport f) app ⟨KeyCode.Char 'n', 0⟩ = Except.ok app) ∧
    (update (faultTransport f) app ⟨KeyCode.Char 't', 0⟩ = Except.ok app) ∧
    (send_rpc_request (fun _ => TransportOutcome.transportError e) a =
      Except.error e) :=
  ⟨rfl, rfl, rfl, rfl, rfl⟩

/-- C3: for every starting state, a control-protocol call that returns an
error (a remote fault) leaves the state — in particular `mode` — unchanged;
a successful call for `continue` or `next` sets `mode = RunningCode`, and a
successful call for `stop` sets `mode = Idle`, all other fields unchanged. -/
theorem rpc_mode_transitions (app : App) (f : Fault)
    (res : DebugActionResult) :
    (update (faultTransport f) app ⟨KeyCode.Char 'c', 0⟩ = Except.ok app) ∧
    (update (faultTransport f) app ⟨KeyCode.Char 'n', 0⟩ = Except.ok app) ∧
    (update (faultTransport f) app ⟨KeyCode.Char 't', 0⟩ = Except.ok app) ∧
    (update (okTransport res) app ⟨KeyCode.Char 'c', 0⟩ =
      Except.ok { app with state := AppState.RunningCode }) ∧
    (update (okTransport res) app ⟨KeyCode.Char 'n', 0⟩ =
      Except.ok { app with state := AppState.RunningCode }) ∧
    (update (okTransport res) app ⟨KeyCode.Char 't', 0⟩ =
      Except.ok { app with state := AppState.Idle }) :=
  ⟨rfl, rfl, rfl, rfl, rfl, rfl⟩

/-- C7: `StdoutReceived line` (resp. `StderrReceived line`) appends exactly
one output line `{stream := Stdout, text := line}` (resp. `Stderr`) to
`output` and leaves every other field — in particular `mode` — unchanged. -/
theorem output_lines_appended (t : Transport) (app : App) (line : String) :
    (step t app (Event.StdoutReceived line) =
      Except.ok { app with output :=
        app.output ++ [⟨OutputType.Stdout, line⟩] }) ∧
    (step t app (Event.StderrReceived line) =
      Except.ok { app with output :=
        app.output ++ [⟨OutputType.Stderr, line⟩] }) :=
  ⟨rfl, rfl⟩

/-- C5: frame navigation is idempotent at the boundaries — on a non-empty
stack, pressing Up at `selectedFrameIndex = 0` leaves the state unchanged,
and pressing Down at `selectedFrameIndex = stack.length - 1` leaves the
state unchanged (whatever panel is selected). -/
theorem frame_nav_boundary (t : Transport) (app : App)
    (hne : app.snapshot.stack ≠ []) :
    (app.selected_frame = 0 →
      update t app ⟨KeyCode.Up, 0⟩ = Except.ok app) ∧
    (app.selected_frame = app.snapshot.stack.length - 1 →
      update t app ⟨KeyCode.Down, 0⟩ = Except.ok app) := by
  have hpos : 0 < app.snapshot.stack.length := List.length_pos.mpr hne
  constructor
  · intro h0
    cases hp : app.selected_panel <;> simp [update, hp, h0]
  · intro hl
    cases hp : app.selected_panel <;>
      simp [update, hp, usizeSub_one_of_pos _ hpos, hl]

/-- C5 witness: in the two-frame sample state with the last frame selected,
pressing Down leaves the state unchanged. -/
theorem frame_nav_boundary_witness :
    update failingTransport sampleApp ⟨KeyCode.Down, 0⟩ =
      Except.ok sampleApp :=
  (frame_nav_boundary failingTransport sampleApp (by decide)).2 (by decide)

/-- C6: panel cycling is a total wrapping permutation over
`[CallStack, Code, Variables, Output]`: four presses of Tab return the state
to its start, and Tab followed by BackTab is the identity. -/
theorem panel_cycle (t : Transport) (app : App) :
    ((update t app ⟨KeyCode.Tab, 0⟩).bind (fun a =>
      (update t a ⟨KeyCode.Tab, 0⟩).bind (fun a =>
        (update t a ⟨KeyCode.Tab, 0⟩).bind (fun a =>
          update t a ⟨KeyCode.Tab, 0⟩)))) = Except.ok app ∧
    ((update t app ⟨KeyCode.Tab, 0⟩).bind (fun a =>
      update t a ⟨KeyCode.BackTab, 0⟩)) = Except.ok app := by
  obtain ⟨q, s, st, p, fr, o⟩ := app
  cases p <;> exact ⟨rfl, rfl⟩

/-- C9: `get_selected_frame` is total — it returns `some` of the frame at
`selectedFrameIndex` exactly when that index is in range, and `none` exactly
when `selectedFrameIndex ≥ stack.length` (in particular on an empty
stack). -/
theorem get_selected_frame_total (app : App) :
    (∀ h : app.selected_frame < app.snapshot.stack.length,
      app.get_selected_frame =
        some (app.snapshot.stack.get ⟨app.selected_frame, h⟩)) ∧
    (app.get_selected_frame = none ↔
      app.snapshot.stack.length ≤ app.selected_frame) := by
  constructor
  · intro h
    simp [App.get_selected_frame, List.getElem?_eq_getElem h]
  · simp [App.get_selected_frame, List.getElem?_eq_none_iff]

/-- C9 witness: in the two-frame sample state the selected frame is the
second frame, and in the initial (empty-stack) state there is none. -/
theorem get_selected_frame_total_witness :
    sampleApp.get_selected_frame = some sampleFrame2 ∧
    App.new.get_selected_frame = none :=
  ⟨(get_selected_frame_total sampleApp).1 (by decide),
   (get_selected_frame_total App.new).2.mpr (by decide)⟩

/-- C10: every key event whose code is not one of the handled keys leaves the
application state unchanged, as do `Tick`, `Mouse` and `Resize` events. -/
theorem unhandled_events_noop (t : Transport) (app : App) :
    (∀ k : KeyEvent, handledCode k.code = false →
      update t app k = Except.ok app) ∧
    step t app Event.Tick = Except.ok app ∧
    (∀ m, step t app (Event.Mouse m) = Except.ok app) ∧
    (∀ w h, step t app (Event.Resize w h) = Except.ok app) := by
  refine ⟨?_, rfl, fun m => rfl, fun w h => rfl⟩
  rintro ⟨code, m⟩ hcode
  cases code
  case Char c =>
    rw [update.eq_def]
    rw [handledCode.eq_def] at hcode
    simp only at hcode ⊢
    split at hcode <;> simp_all
  all_goals first | rfl | simp_all [handledCode]

/-- C10 witness: pressing Enter in the initial state changes nothing. -/
theorem unhandled_events_noop_witness :
    update failingTransport App.new ⟨KeyCode.Enter, 0⟩ =
      Except.ok App.new :=
  (unhandled_events_noop failingTransport App.new).1 ⟨KeyCode.Enter, 0⟩ rfl

end LazyPdb
